import Mathlib

/-!
# Verification of the ml5 `SpeechCommands` feature extractor

A shallow embedding of `src/FeatureExtractor/SpeechCommands.js`: the extractor
state, its methods (`classification`, `addExample`, `train`, `classify`,
`load`, `save`) and the protocol it drives against the transfer-model
collaborator, followed by theorems about the documented behaviour.

JavaScript effects are made explicit: methods take and return the extractor
state, collaborator calls are recorded as event traces, callback invocations
are returned as lists of argument values, and thrown errors become values of
an error type.
-/

namespace Ml5SpeechCommands

/-- JavaScript runtime values, as far as this module inspects them:
`null`, `undefined`, strings, (integer) numbers, functions (opaque — the
module only ever tests `typeof x === 'function'`), and plain objects given
as key/value lists. -/
inductive JSValue where
  | null : JSValue
  | undefinedV : JSValue
  | str : String → JSValue
  | num : Int → JSValue
  | fn : JSValue
  | obj : List (String × JSValue) → JSValue
deriving Repr

/-- Structural equality test for `JSValue` (written by hand because the
nested `List` blocks the derive handler). -/
def beqJS : JSValue → JSValue → Bool
  | .null, .null => true
  | .undefinedV, .undefinedV => true
  | .str a, .str b => a = b
  | .num a, .num b => a = b
  | .fn, .fn => true
  | .obj [], .obj [] => true
  | .obj ((k1, v1) :: r1), .obj ((k2, v2) :: r2) =>
      k1 = k2 && beqJS v1 v2 && beqJS (.obj r1) (.obj r2)
  | _, _ => false

theorem beqJS_iff : ∀ a b : JSValue, beqJS a b = true ↔ a = b := by
  intro a b
  induction a, b using beqJS.induct
  case case8 a b h1 h2 h3 h4 h5 h6 h7 =>
    simp_all [beqJS]
    intro h
    subst h
    cases a with
    | null => exact h1 rfl rfl
    | undefinedV => exact h2 rfl rfl
    | str s => exact h3 s s rfl rfl
    | num n => exact h4 n n rfl rfl
    | fn => exact h5 rfl rfl
    | obj l =>
      cases l with
      | nil => exact h6 rfl rfl
      | cons p r => exact h7 p.1 p.2 r p.1 p.2 r rfl rfl
  all_goals simp_all [beqJS]

instance : DecidableEq JSValue := fun a b =>
  decidable_of_iff (beqJS a b = true) (beqJS_iff a b)

/-- The JavaScript `typeof` operator restricted to `JSValue`.
Note `typeof null` is `"object"`. -/
def jsTypeof : JSValue → String
  | .null => "object"
  | .undefinedV => "undefined"
  | .str _ => "string"
  | .num _ => "number"
  | .fn => "function"
  | .obj _ => "object"

/-- Set key `k` to `v` in a key/value list, overriding an existing binding
for `k` and appending otherwise (JS property assignment). -/
def setKey (kvs : List (String × JSValue)) (k : String) (v : JSValue) :
    List (String × JSValue) :=
  if kvs.any (fun p => p.1 = k) then
    kvs.map (fun p => if p.1 = k then (k, v) else p)
  else kvs ++ [(k, v)]

/-- `Object.assign(target, source)` restricted to the shapes reachable in
this module: an object source copies its keys into the target in order
(later keys overriding earlier); `null` and `undefined` sources are ignored;
other sources contribute no keys here. -/
def objectAssign (target : List (String × JSValue)) : JSValue → List (String × JSValue)
  | .obj kvs => kvs.foldl (fun acc p => setKey acc p.1 p.2) target
  | _ => target

/-- Look up the first binding of key `k`. -/
def lookupKey (kvs : List (String × JSValue)) (k : String) : Option JSValue :=
  (kvs.find? (fun p => p.1 = k)).map Prod.snd

/-! ## The transfer-model collaborator

The `@tensorflow-models/speech-commands` transfer recognizer is an external
collaborator; the spec fixes its protocol (`isListening`, `stopListening`,
`collectExample`, `countExamples`, `wordLabels`, `train`, `listen`). We model
the state the extractor's sequencing depends on: the ordered list of collected
example labels and whether a listen session is active. -/

/-- Observable state of the transfer-model collaborator. -/
structure TransferModel where
  /-- Labels of the examples collected so far, in collection order. -/
  examples : List JSValue
  /-- Whether a listen session (microphone stream) is active. -/
  listening : Bool
deriving Repr, DecidableEq

/-- The fresh transfer model produced by `createTransfer('transfer')`:
no examples, not listening. -/
def createTransfer : TransferModel := { examples := [], listening := false }

/-- The collaborator's `wordLabels()`: the distinct labels among the collected
examples, first occurrence first (the spec leaves the order to the
collaborator's contract). -/
def TransferModel.wordLabels (m : TransferModel) : List JSValue :=
  m.examples.foldl (fun acc l => if l ∈ acc then acc else acc ++ [l]) []

/-- The collaborator's `countExamples()`: the per-label example counts, one
entry per distinct label. -/
def TransferModel.countExamples (m : TransferModel) : List (JSValue × Nat) :=
  m.wordLabels.map (fun l => (l, m.examples.count l))

/-- A call the extractor makes against the collaborator's listening
protocol, recorded in order. -/
inductive ListenEvent where
  | stopListening : ListenEvent
  | collectExample : JSValue → ListenEvent
  | startListen : ListenEvent
deriving Repr, DecidableEq

/-- How a `ListenEvent` acts on the collaborator's listening flag. -/
def applyEvent (b : Bool) : ListenEvent → Bool
  | .stopListening => false
  | .startListen => true
  | .collectExample _ => b

/-- Number of inactive→active transitions of the listening flag along an
event trace started from flag value `b`. -/
def countActivations : Bool → List ListenEvent → Nat
  | _, [] => 0
  | b, e :: es =>
    let b' := applyEvent b e
    (if b' && !b then 1 else 0) + countActivations b' es

/-! ## The extractor state -/

/-- Errors the extractor can throw. `jsError` is `throw new Error(msg)`;
`typeError` is a runtime `TypeError` from dereferencing `null`/`undefined`. -/
inductive JSError where
  | jsError : String → JSError
  | typeError : String → JSError
deriving Repr, DecidableEq

/-- The mutable fields of a `SpeechCommands` extractor instance.
`wordLabels` and `examplesCount` start out absent (`undefined` in JS) and are
first assigned by `train`/`load`. -/
structure SpeechCommands where
  /-- Whether the base model handle has been loaded (`speechCommandsModel`). -/
  speechCommandsModel : Bool
  /-- `this.isPredicting` — documented as true while the model is predicting. -/
  isPredicting : Bool
  /-- `this.usageType` — `none` models JS `null`. -/
  usageType : Option String
  /-- `this.options`, the configuration record passed to `listen`. -/
  options : List (String × JSValue)
  /-- `this.model`, the transfer model; `none` models JS `null`. -/
  model : Option TransferModel
  /-- `this.wordLabels` — `none` models JS `undefined` (never assigned). -/
  wordLabels : Option (List JSValue)
  /-- `this.examplesCount` — `none` models JS `undefined` (never assigned). -/
  examplesCount : Option (List (JSValue × Nat))
deriving Repr, DecidableEq

/-- The extractor state right after the constructor (and `loadModel`) ran:
`isPredicting = false`, `usageType = null`, `options = {}`, `model = null`. -/
def initState : SpeechCommands :=
  { speechCommandsModel := true
    isPredicting := false
    usageType := none
    options := []
    model := none
    wordLabels := none
    examplesCount := none }

/-! ## `classification(options)` -/

/-- `classification(options)`: sets `usageType` to `'classifier'`, replaces
`this.model` with a fresh transfer model, and runs
`Object.assign(this.options, options)` when `typeof options === 'object'`
(which includes `null`; `objectAssign` ignores a `null` source, as
`Object.assign` does). The method returns `this`, i.e. the updated state. -/
def classification (st : SpeechCommands) (options : JSValue) : SpeechCommands :=
  { st with
    usageType := some "classifier"
    model := some createTransfer
    options :=
      if jsTypeof options = "object" then objectAssign st.options options
      else st.options }

/-! ## `addExample(labelOrCallback, cb)` -/

/-- Overload resolution in `addExample`: a string or number first argument is
the label; anything else (in particular a function, treated as the callback)
leaves the label `undefined`. -/
def resolveAddExampleLabel : JSValue → JSValue
  | .str s => .str s
  | .num n => .num n
  | _ => .undefinedV

/-- `addExampleInternal(label)`: stops an active listen session, then collects
one example under `label`. Returns the post-state and the trace of
collaborator calls; dereferencing a `null` model is a `TypeError`. -/
def addExampleInternal (st : SpeechCommands) (label : JSValue) :
    Except JSError (SpeechCommands × List ListenEvent) :=
  match st.model with
  | none => .error (.typeError "Cannot read properties of null (reading 'isListening')")
  | some m =>
    let stopEvs : List ListenEvent := if m.listening then [.stopListening] else []
    let m1 : TransferModel := { m with listening := false, examples := m.examples ++ [label] }
    .ok ({ st with model := some m1 }, stopEvs ++ [.collectExample label])

/-- A sequence of `addExample` calls with the given (already resolved)
labels, threading the state through. -/
def addMany (st : SpeechCommands) : List JSValue → Except JSError SpeechCommands
  | [] => .ok st
  | l :: ls =>
    match addExampleInternal st l with
    | .error e => .error e
    | .ok (st1, _) => addMany st1 ls

/-! ## `train(onProgress)` -/

/-- Rendering of `x.toFixed(5)` for a rational loss value: the value rounded
to five decimal places, printed with exactly five digits after the point. -/
def toFixed5 (q : ℚ) : String :=
  let n : Nat := (Int.floor (|q| * 100000 + 1 / 2)).toNat
  let ip := n / 100000
  let fp := n % 100000
  let fpStr := toString fp
  let padded := String.mk (List.replicate (5 - fpStr.length) (Char.ofNat 48)) ++ fpStr
  (if q < 0 ∧ n ≠ 0 then "-" else "") ++ toString ip ++ "." ++ padded

/-- Environment for a training run: the loss the collaborator reports at
each epoch (`logs.loss` in `onEpochEnd`). -/
structure TrainEnv where
  losses : Nat → ℚ

/-- The `onEpochEnd` callback built by `train`: forwards
`logs.loss.toFixed(5)` to `onProgress`. -/
def onEpochEndProgress (loss : ℚ) : Option String :=
  some (toFixed5 loss)

/-- The collaborator's `train({epochs, callback})` contract: `onEpochEnd`
fires once per epoch, `onTrainEnd` fires once at the end (where `train`
passes `onProgress(null)`). The list collects the successive `onProgress`
arguments, `none` standing for `null`. -/
def collaboratorTrain (epochs : Nat) (env : TrainEnv) : List (Option String) :=
  ((List.range epochs).map (fun e => onEpochEndProgress (env.losses e))) ++ [none]

/-- Outcome of a `train` call: the thrown error if any, the extractor state
after the call (mutations before a throw are kept), and the arguments of the
`onProgress` invocations in order. -/
structure TrainOutcome where
  error : Option JSError
  state : SpeechCommands
  progressCalls : List (Option String)
deriving Repr

/-- `train(onProgress)`: stores `countExamples()` into `this.examplesCount`;
throws `'Add some examples before training!'` when it has no labels; forces
`isPredicting` to false; in classifier mode refreshes `this.wordLabels` from
the model and runs the collaborator's training with `epochs: 25`, otherwise
does nothing further (the non-classifier path is a silent no-op). -/
def train (st : SpeechCommands) (env : TrainEnv) : TrainOutcome :=
  match st.model with
  | none =>
    { error := some (.typeError "Cannot read properties of null (reading 'countExamples')")
      state := st
      progressCalls := [] }
  | some m =>
    let ec := m.countExamples
    let st1 := { st with examplesCount := some ec }
    if ec.length ≤ 0 then
      { error := some (.jsError "Add some examples before training!")
        state := st1
        progressCalls := [] }
    else
      let st2 := { st1 with isPredicting := false }
      if st2.usageType = some "classifier" then
        let st3 := { st2 with wordLabels := some m.wordLabels }
        { error := none, state := st3, progressCalls := collaboratorTrain 25 env }
      else
        { error := none, state := st2, progressCalls := [] }

/-! ## `classify(numOrCallback, cb)` -/

/-- The initializer `let numberOfClasses = this.wordLabels.length;` followed
by the overload resolution: a numeric first argument overrides the default. -/
def resolveNumberOfClasses (wordLabels : List JSValue) : JSValue → Int
  | .num n => n
  | _ => wordLabels.length

/-- `classifyInternal(topk, cb)`: stops an active listen session, then starts
a new one via `model.listen`. Returns the post-state, the trace of
collaborator calls, and the `topk` handed to the result handler. -/
def classifyInternal (st : SpeechCommands) (topk : Int) :
    Except JSError (SpeechCommands × List ListenEvent × Int) :=
  match st.model with
  | none => .error (.typeError "Cannot read properties of null (reading 'isListening')")
  | some m =>
    let stopEvs : List ListenEvent := if m.listening then [.stopListening] else []
    let m1 : TransferModel := { m with listening := true }
    .ok ({ st with model := some m1 }, stopEvs ++ [.startListen], topk)

/-- `classify(numOrCallback, cb)`: throws unless `usageType` is
`'classifier'`; then reads `this.wordLabels.length` (a `TypeError` when
`wordLabels` was never assigned) before resolving the overloaded first
argument; then delegates to `classifyInternal`. -/
def classify (st : SpeechCommands) (numOrCallback : JSValue) :
    Except JSError (SpeechCommands × List ListenEvent × Int) :=
  if st.usageType ≠ some "classifier" then
    .error (.jsError "SpeechCommands Feature Extraction has not been set to be a classifier.")
  else
    match st.wordLabels with
    | none => .error (.typeError "Cannot read properties of undefined (reading 'length')")
    | some ls => classifyInternal st (resolveNumberOfClasses ls numOrCallback)

/-! ## The classification result handler -/

/-- An entry of the collaborator's top-K ranking. -/
structure TopClass where
  className : JSValue
  probability : ℚ
deriving Repr, DecidableEq

/-- Descending order on (label, score) pairs: `a` before `b` when
`a`'s score is at least `b`'s. -/
def scoreGe (a b : JSValue × ℚ) : Prop := b.2 ≤ a.2

instance : DecidableRel scoreGe := fun a b => inferInstanceAs (Decidable (b.2 ≤ a.2))

instance : IsTotal (JSValue × ℚ) scoreGe := ⟨fun a b => le_total b.2 a.2⟩

instance : IsTrans (JSValue × ℚ) scoreGe := ⟨fun _ _ _ h1 h2 => le_trans h2 h1⟩

/-- Modelled from the spec: `getTopKClassesFromArray` is defined in
`src/utils/gettopkclasses.js`, which is not among the sources here. Per the
spec ("the top-K classes (K = requested class-count, clamped to available
labels) are extracted, ranked by descending confidence"): pair each label
with its score, rank by descending score, and keep the first K entries, K
clamped to the number of available labels. -/
def getTopKClassesFromArray (values : List ℚ) (topK : Int) (classes : List JSValue) :
    List TopClass :=
  let sorted := List.insertionSort scoreGe (classes.zip values)
  (sorted.take (min topK.toNat classes.length)).map
    (fun p => { className := p.1, probability := p.2 })

/-- A `{label, confidence}` pair as delivered to the `classify` callback. -/
structure LabelConfidence where
  label : JSValue
  confidence : ℚ
deriving Repr, DecidableEq

/-- One invocation of the `classify` result callback: the error-first
argument (`none` models `null`) and the classes argument when present. -/
structure CallbackCall where
  err : Option String
  result : Option (List LabelConfidence)
deriving Repr, DecidableEq

/-- A result emitted by the collaborator's listen stream: either it carries a
`scores` vector or it does not. -/
inductive SCResult where
  | withScores : List ℚ → SCResult
  | noScores : SCResult
deriving Repr, DecidableEq

/-- The closure `classifyInternal` passes to `model.listen`: on a result with
scores, deliver `cb(null, classes)` with the top-K classes mapped to
`{label, confidence}` pairs; otherwise deliver a descriptive error string. -/
def classifyResultHandler (topk : Int) (wordLabels : List JSValue) : SCResult → CallbackCall
  | .withScores scores =>
    { err := none
      result := some ((getTopKClassesFromArray scores topk wordLabels).map
        (fun c => { label := c.className, confidence := c.probability })) }
  | .noScores =>
    { err := some "ERROR: Cannot find scores in result", result := none }

/-! ## `load` and `save` -/

/-- Environment for `load(path)`: the transfer model reconstructed from the
`model.json`/`metadata.json` artifacts at the given path. -/
structure LoadEnv where
  loadedModel : TransferModel

/-- `load(filesOrPath, callback)`: with a string path, replaces `this.model`
with the model loaded from the artifacts and refreshes `this.wordLabels`
from it; with any other argument it is a no-op. Returns `this.model`. -/
def load (st : SpeechCommands) (filesOrPath : JSValue) (env : LoadEnv) :
    SpeechCommands × Option TransferModel :=
  match filesOrPath with
  | .str _ =>
    let m := env.loadedModel
    let st1 := { st with model := some m, wordLabels := some m.wordLabels }
    (st1, st1.model)
  | _ => (st, st.model)

/-- `save(callback)`: throws `'No model found.'` when `this.model` is `null`
(`!this.model`); otherwise serializes the model and metadata into the two
artifacts `model.json` and `metadata.json`. -/
def save (st : SpeechCommands) : Except JSError (SpeechCommands × List String) :=
  match st.model with
  | none => .error (.jsError "No model found.")
  | some _ => .ok (st, ["model.json", "metadata.json"])

/-! ## Helper lemmas -/

theorem mem_dedupFoldl (ls : List JSValue) (acc : List JSValue) (x : JSValue) :
    x ∈ ls.foldl (fun a l => if l ∈ a then a else a ++ [l]) acc ↔ x ∈ acc ∨ x ∈ ls := by
  induction ls generalizing acc with
  | nil => simp
  | cons l ls ih =>
    simp only [List.foldl_cons]
    by_cases h : l ∈ acc
    · rw [if_pos h, ih]
      simp only [List.mem_cons]
      constructor
      · rintro (hx | hx)
        · exact Or.inl hx
        · exact Or.inr (Or.inr hx)
      · rintro (hx | rfl | hx)
        · exact Or.inl hx
        · exact Or.inl h
        · exact Or.inr hx
    · rw [if_neg h, ih]
      simp only [List.mem_append, List.mem_singleton, List.mem_cons]
      tauto

theorem nodup_dedupFoldl (ls : List JSValue) (acc : List JSValue) (h : acc.Nodup) :
    (ls.foldl (fun a l => if l ∈ a then a else a ++ [l]) acc).Nodup := by
  induction ls generalizing acc with
  | nil => exact h
  | cons l ls ih =>
    simp only [List.foldl_cons]
    by_cases hl : l ∈ acc
    · rw [if_pos hl]; exact ih acc h
    · rw [if_neg hl]
      refine ih _ ?_
      simp [List.nodup_append, h, hl]

theorem mem_wordLabels (m : TransferModel) (x : JSValue) :
    x ∈ m.wordLabels ↔ x ∈ m.examples := by
  unfold TransferModel.wordLabels
  rw [mem_dedupFoldl]
  simp

theorem nodup_wordLabels (m : TransferModel) : m.wordLabels.Nodup :=
  nodup_dedupFoldl m.examples [] List.nodup_nil

theorem wordLabels_nil_iff (m : TransferModel) : m.wordLabels = [] ↔ m.examples = [] := by
  constructor
  · intro h
    cases hx : m.examples with
    | nil => rfl
    | cons a as =>
      exfalso
      have ha : a ∈ m.wordLabels := by
        rw [mem_wordLabels, hx]
        exact List.mem_cons_self a as
      rw [h] at ha
      exact List.not_mem_nil a ha
  · intro h
    unfold TransferModel.wordLabels
    rw [h]
    rfl

theorem countExamples_nil_iff (m : TransferModel) : m.countExamples = [] ↔ m.examples = [] := by
  unfold TransferModel.countExamples
  rw [List.map_eq_nil_iff]
  exact wordLabels_nil_iff m

/-- A successful `train` run in full: with a model, a non-empty store and
classifier mode, `train` throws nothing, forces `isPredicting` to false,
stores `countExamples()`, refreshes `wordLabels` from the model, and runs
the collaborator training over 25 epochs. -/
theorem train_success_aux (st : SpeechCommands) (m : TransferModel) (env : TrainEnv)
    (h : st.model = some m) (hne : m.examples ≠ []) (hu : st.usageType = some "classifier") :
    train st env =
      { error := none
        state :=
          { st with
              isPredicting := false
              examplesCount := some m.countExamples
              wordLabels := some m.wordLabels }
        progressCalls := collaboratorTrain 25 env } := by
  have hec : ¬ m.countExamples.length ≤ 0 := by
    simp only [Nat.le_zero, List.length_eq_zero]
    rw [countExamples_nil_iff]
    exact hne
  simp [train, h, hec, hu]

/-- `addMany` starting from a non-listening model appends the labels to the
example store in order and never fails. -/
theorem addMany_ok (st : SpeechCommands) (m : TransferModel) (ls : List JSValue)
    (h : st.model = some m) (hl : m.listening = false) :
    addMany st ls =
      .ok { st with model := some { examples := m.examples ++ ls, listening := false } } := by
  induction ls generalizing st m with
  | nil =>
    have hm : ({ examples := m.examples ++ [], listening := false } : TransferModel) = m := by
      cases m
      simp_all
    rw [addMany, hm]
    cases st
    simp_all
  | cons l ls ih =>
    rw [addMany, addExampleInternal, h]
    simp only []
    rw [ih _ { m with listening := false, examples := m.examples ++ [l] } rfl rfl]
    simp [List.append_assoc]

/-! ## Concrete states used by witnesses -/

/-- A classifier-mode extractor with a fresh (empty) transfer model. -/
def emptyClassifierState : SpeechCommands :=
  { initState with
      usageType := some "classifier"
      model := some createTransfer }

/-- A transfer model holding one collected example labelled `'yes'`. -/
def oneExampleModel : TransferModel :=
  { createTransfer with examples := [JSValue.str "yes"] }

/-- A classifier-mode extractor holding one collected example. -/
def oneExampleClassifierState : SpeechCommands :=
  { initState with
      usageType := some "classifier"
      model := some oneExampleModel }

/-- A training environment reporting a constant loss of `1/2`. -/
def constEnv : TrainEnv := ⟨fun _ => 1/2⟩

/-! ## Claim theorems -/

/-- C1: for every extractor state whose example store is empty
(`countExamples()` yields no labels), `train(onProgress)` fails with the
error `'Add some examples before training!'` and `onProgress` is never
invoked: no epoch callback fires before the failure. -/
theorem train_empty_store_fails (st : SpeechCommands) (m : TransferModel) (env : TrainEnv)
    (h : st.model = some m) (he : m.countExamples = []) :
    (train st env).error = some (.jsError "Add some examples before training!") ∧
    (train st env).progressCalls = [] := by
  simp [train, h, he]

/-- C1 witness: a concrete classifier-mode state with an empty example
store. -/
theorem train_empty_store_fails_witness :
    emptyClassifierState.model = some createTransfer ∧
    createTransfer.countExamples = [] ∧
    ((train emptyClassifierState constEnv).error
        = some (.jsError "Add some examples before training!") ∧
      (train emptyClassifierState constEnv).progressCalls = []) :=
  ⟨rfl, rfl, train_empty_store_fails _ createTransfer constEnv rfl rfl⟩

/-- C4: in classifier mode with a non-empty example store, `train` succeeds
with a fixed budget of 25 epochs: `onProgress` receives each epoch's loss as
`toFixed(5)` string in epoch order, then exactly one final `null`
(26 invocations in total, the last being `null`). -/
theorem train_classifier_progress (st : SpeechCommands) (m : TransferModel) (env : TrainEnv)
    (h : st.model = some m) (hne : m.examples ≠ []) (hu : st.usageType = some "classifier") :
    (train st env).error = none ∧
    (train st env).progressCalls =
      ((List.range 25).map (fun e => some (toFixed5 (env.losses e)))) ++ [none] ∧
    (train st env).progressCalls.length = 26 ∧
    (train st env).progressCalls.getLast? = some none := by
  have hec : ¬ m.countExamples.length ≤ 0 := by
    simp only [Nat.le_zero, List.length_eq_zero]
    rw [countExamples_nil_iff]
    exact hne
  refine ⟨?_, ?_, ?_, ?_⟩ <;>
    simp [train, h, hec, hu, collaboratorTrain, onEpochEndProgress, List.getLast?_concat]

/-- C4 witness: a concrete classifier-mode state with one collected
example. -/
theorem train_classifier_progress_witness :
    oneExampleClassifierState.model = some oneExampleModel ∧
    oneExampleModel.examples ≠ [] ∧
    oneExampleClassifierState.usageType = some "classifier" ∧
    (train oneExampleClassifierState constEnv).progressCalls.length = 26 := by
  refine ⟨rfl, by decide, rfl, ?_⟩
  exact (train_classifier_progress oneExampleClassifierState oneExampleModel constEnv
    rfl (by decide) rfl).2.2.1

/-- C6: `classify` on any extractor whose usage mode is not `'classifier'`
fails immediately with the mode error (its message contains "not set to be a
classifier"), regardless of the argument, before any collaborator call. -/
theorem classify_requires_classifier_mode (st : SpeechCommands) (arg : JSValue)
    (h : st.usageType ≠ some "classifier") :
    classify st arg =
      .error (.jsError "SpeechCommands Feature Extraction has not been set to be a classifier.") := by
  unfold classify
  rw [if_pos h]

/-- C6 witness: the freshly constructed extractor (usage mode unset) with a
numeric argument. -/
theorem classify_requires_classifier_mode_witness :
    initState.usageType ≠ some "classifier" ∧
    classify initState (.num 3) =
      .error (.jsError "SpeechCommands Feature Extraction has not been set to be a classifier.") :=
  ⟨by decide, classify_requires_classifier_mode initState (.num 3) (by decide)⟩

/-- C10: in classifier mode with `wordLabels` never assigned (`undefined`),
every `classify` call fails with the `TypeError` from reading
`this.wordLabels.length` — even when an explicit numeric class count is
supplied, because the default is computed before overload resolution. -/
theorem classify_undefined_wordLabels (st : SpeechCommands) (arg : JSValue)
    (hu : st.usageType = some "classifier") (hw : st.wordLabels = none) :
    classify st arg =
      .error (.typeError "Cannot read properties of undefined (reading 'length')") := by
  unfold classify
  rw [if_neg (by rw [hu]; exact fun hne => hne rfl), hw]

/-- C10 witness: right after `classification()` (no `train`/`load` yet),
with an explicit numeric count `2`. -/
theorem classify_undefined_wordLabels_witness :
    (classification initState .null).usageType = some "classifier" ∧
    (classification initState .null).wordLabels = none ∧
    classify (classification initState .null) (.num 2) =
      .error (.typeError "Cannot read properties of undefined (reading 'length')") :=
  ⟨rfl, rfl, classify_undefined_wordLabels _ (.num 2) rfl rfl⟩

/-- The state of an extractor on which only `load('my-model')` has been
performed after construction — no `classification()` and no training. The
environment supplies the transfer model restored from the artifacts. -/
def loadedOnlyState : SpeechCommands :=
  (load initState (.str "my-model") ⟨oneExampleModel⟩).1

/-- C5 counterexample: the claim's first half — "`save()` called on an
extractor before any classification()/training has occurred always fails
with NoModelError" — is false: on `loadedOnlyState`, reached from the fresh
extractor by `load(path)` alone (no `classification()`, no training),
`save()` succeeds and produces the two artifacts. -/
theorem save_after_load_only_succeeds :
    loadedOnlyState.model ≠ none ∧
    save loadedOnlyState = .ok (loadedOnlyState, ["model.json", "metadata.json"]) ∧
    save loadedOnlyState ≠ .error (.jsError "No model found.") := by
  refine ⟨?_, rfl, ?_⟩
  · intro h
    exact Option.noConfusion h
  · intro h
    exact Except.noConfusion h

/-- C5 (amended): `save()` fails with `'No model found.'` exactly when no
transfer model exists on the extractor (`this.model` is `null`); in
particular on a freshly constructed extractor, where neither
`classification()` nor `load(path)` has installed a model, it always
fails that way. -/
theorem save_no_model_iff (st : SpeechCommands) :
    (save st = .error (.jsError "No model found.") ↔ st.model = none) ∧
    (initState.model = none ∧
      save initState = .error (.jsError "No model found.")) := by
  refine ⟨?_, rfl, rfl⟩
  cases h : st.model with
  | none => simp [save, h]
  | some m =>
    simp only [save, h]
    constructor
    · intro hx
      exact Except.noConfusion hx
    · intro hx
      exact Option.noConfusion hx

/-- C3: `addExample` (via `addExampleInternal`) and `classify` (via
`classifyInternal`) both stop an active listen session first: when the model
is listening, the first collaborator call of either operation is
`stopListening`; the listening flag goes inactive→active at most once per
call (exactly once for `classify`, never for `addExample`), so listen
sessions never stack. -/
theorem stop_before_start (st : SpeechCommands) (m : TransferModel) (l : JSValue)
    (topk : Int) (h : st.model = some m) :
    (addExampleInternal st l =
        .ok ({ st with model := some { m with listening := false, examples := m.examples ++ [l] } },
          (if m.listening then [ListenEvent.stopListening] else []) ++ [.collectExample l]) ∧
      countActivations m.listening
        ((if m.listening then [ListenEvent.stopListening] else []) ++ [.collectExample l]) = 0) ∧
    (classifyInternal st topk =
        .ok ({ st with model := some { m with listening := true } },
          (if m.listening then [ListenEvent.stopListening] else []) ++ [.startListen], topk) ∧
      countActivations m.listening
        ((if m.listening then [ListenEvent.stopListening] else []) ++ [.startListen]) = 1) ∧
    (m.listening = true →
      ((if m.listening then [ListenEvent.stopListening] else [])
          ++ [ListenEvent.collectExample l]).head? = some ListenEvent.stopListening ∧
      ((if m.listening then [ListenEvent.stopListening] else [])
          ++ [ListenEvent.startListen]).head? = some ListenEvent.stopListening) := by
  cases hl : m.listening <;>
    simp [addExampleInternal, classifyInternal, h, hl, countActivations, applyEvent]

/-- A transfer model with an active listen session. -/
def listeningModel : TransferModel := { createTransfer with listening := true }

/-- A classifier-mode extractor whose model is currently listening. -/
def listeningClassifierState : SpeechCommands :=
  { emptyClassifierState with model := some listeningModel }

/-- C3 witness: a classifier-mode extractor whose model is currently
listening. -/
theorem stop_before_start_witness :
    listeningClassifierState.model = some listeningModel ∧
    countActivations listeningModel.listening
      ((if listeningModel.listening then [ListenEvent.stopListening] else [])
        ++ [.startListen]) = 1 := by
  refine ⟨rfl, ?_⟩
  exact (stop_before_start listeningClassifierState listeningModel
    (.str "yes") 2 rfl).2.1.2

/-- C8: for every label sequence `ls` added via `addExample` after
`classification()`, a successful `train()` leaves `wordLabels` populated
from the transfer model with exactly the distinct labels of `ls`:
membership coincides with membership in `ls` and there are no duplicates. -/
theorem train_wordLabels_distinct (st0 : SpeechCommands) (opts : JSValue)
    (ls : List JSValue) (env : TrainEnv) (st1 : SpeechCommands)
    (hls : ls ≠ [])
    (hadd : addMany (classification st0 opts) ls = .ok st1) :
    (train st1 env).error = none ∧
    ∃ ws, (train st1 env).state.wordLabels = some ws ∧
      (∀ x, x ∈ ws ↔ x ∈ ls) ∧ ws.Nodup := by
  rw [addMany_ok (classification st0 opts) createTransfer ls rfl rfl] at hadd
  have hst1 : st1 =
      { classification st0 opts with
          model := some { examples := createTransfer.examples ++ ls, listening := false } } :=
    (Except.ok.inj hadd).symm
  have hm : st1.model = some { examples := ls, listening := false } := by
    rw [hst1]
    rfl
  have hu : st1.usageType = some "classifier" := by
    rw [hst1]
    rfl
  rw [train_success_aux st1 { examples := ls, listening := false } env hm hls hu]
  refine ⟨rfl, ({ examples := ls, listening := false } : TransferModel).wordLabels, rfl, ?_, ?_⟩
  · intro x
    exact mem_wordLabels { examples := ls, listening := false } x
  · exact nodup_wordLabels { examples := ls, listening := false }

/-- The state reached by `classification()` followed by three `addExample`
calls with labels `'yes'`, `'no'`, `'yes'`. -/
def threeExamplesState : SpeechCommands :=
  { classification initState .null with
      model := some { examples := [.str "yes", .str "no", .str "yes"], listening := false } }

/-- C8 witness: adding `'yes'`, `'no'`, `'yes'` and training yields word
labels whose membership is exactly `{'yes', 'no'}`, without duplicates. -/
theorem train_wordLabels_distinct_witness :
    ([JSValue.str "yes", .str "no", .str "yes"] ≠ ([] : List JSValue)) ∧
    addMany (classification initState .null) [.str "yes", .str "no", .str "yes"]
      = .ok threeExamplesState ∧
    ((train threeExamplesState constEnv).error = none ∧
      ∃ ws, (train threeExamplesState constEnv).state.wordLabels = some ws ∧
        (∀ x, x ∈ ws ↔ x ∈ [JSValue.str "yes", .str "no", .str "yes"]) ∧ ws.Nodup) := by
  refine ⟨by decide, rfl, ?_⟩
  exact train_wordLabels_distinct initState .null
    [.str "yes", .str "no", .str "yes"] constEnv threeExamplesState (by decide) rfl

/-! ## Assoc-list lemmas for `Object.assign` -/

theorem lookupKey_nil (k : String) : lookupKey [] k = none := rfl

theorem lookupKey_cons (q : String × JSValue) (r : List (String × JSValue)) (k : String) :
    lookupKey (q :: r) k = if q.1 = k then some q.2 else lookupKey r k := by
  by_cases h : q.1 = k <;> simp [lookupKey, List.find?_cons, h]

theorem lookupKey_setKey_self (kvs : List (String × JSValue)) (k : String) (v : JSValue) :
    lookupKey (setKey kvs k v) k = some v := by
  unfold setKey
  split
  case isTrue h =>
    induction kvs with
    | nil => simp at h
    | cons q r ih =>
      by_cases hq : q.1 = k
      · simp only [List.map_cons, if_pos hq]
        rw [lookupKey_cons]
        simp
      · simp only [List.any_cons, Bool.or_eq_true, decide_eq_true_eq] at h
        rcases h with h | h
        · exact absurd h hq
        · simp only [List.map_cons, if_neg hq]
          rw [lookupKey_cons, if_neg hq]
          exact ih h
  case isFalse h =>
    induction kvs with
    | nil =>
      rw [List.nil_append, lookupKey_cons]
      simp
    | cons q r ih =>
      simp only [List.any_cons, Bool.or_eq_true, decide_eq_true_eq, not_or] at h
      rw [List.cons_append, lookupKey_cons, if_neg h.1]
      exact ih (by simpa using h.2)

theorem lookupKey_setKey_other (kvs : List (String × JSValue)) (k k' : String) (v : JSValue)
    (hkk : k' ≠ k) : lookupKey (setKey kvs k v) k' = lookupKey kvs k' := by
  unfold setKey
  split
  case isTrue h =>
    clear h
    induction kvs with
    | nil => rfl
    | cons q r ih =>
      by_cases hq : q.1 = k
      · simp only [List.map_cons, if_pos hq]
        rw [lookupKey_cons, lookupKey_cons, if_neg (fun hx => hkk hx.symm),
          if_neg (fun hx => hkk ((hq.symm.trans hx).symm))]
        exact ih
      · simp only [List.map_cons, if_neg hq]
        rw [lookupKey_cons, lookupKey_cons]
        by_cases hq' : q.1 = k'
        · rw [if_pos hq', if_pos hq']
        · rw [if_neg hq', if_neg hq']
          exact ih
  case isFalse h =>
    clear h
    induction kvs with
    | nil =>
      rw [List.nil_append, lookupKey_cons, if_neg (fun hx => hkk hx.symm), lookupKey_nil]
    | cons q r ih =>
      rw [List.cons_append, lookupKey_cons, lookupKey_cons]
      by_cases hq' : q.1 = k'
      · rw [if_pos hq', if_pos hq']
      · rw [if_neg hq', if_neg hq']
        exact ih

theorem lookupKey_assignFoldl_absent (kvs : List (String × JSValue))
    (t : List (String × JSValue)) (k : String) (hk : k ∉ kvs.map Prod.fst) :
    lookupKey (kvs.foldl (fun acc p => setKey acc p.1 p.2) t) k = lookupKey t k := by
  induction kvs generalizing t with
  | nil => rfl
  | cons q r ih =>
    simp only [List.map_cons, List.mem_cons, not_or] at hk
    rw [List.foldl_cons, ih _ hk.2, lookupKey_setKey_other _ _ _ _ hk.1]

theorem lookupKey_assignFoldl_mem (kvs : List (String × JSValue))
    (t : List (String × JSValue)) (k : String) (v : JSValue)
    (hnd : (kvs.map Prod.fst).Nodup) (hmem : (k, v) ∈ kvs) :
    lookupKey (kvs.foldl (fun acc p => setKey acc p.1 p.2) t) k = some v := by
  induction kvs generalizing t with
  | nil => exact absurd hmem (List.not_mem_nil _)
  | cons q r ih =>
    simp only [List.map_cons, List.nodup_cons] at hnd
    rcases List.mem_cons.mp hmem with heq | hmem'
    · subst heq
      rw [List.foldl_cons,
        lookupKey_assignFoldl_absent r _ k (by simpa using hnd.1),
        lookupKey_setKey_self]
    · rw [List.foldl_cons]
      exact ih _ hnd.2 hmem'

/-- C9: `classification(options)` sets the usage mode to `'classifier'` and
installs a fresh transfer model (empty example store, not listening),
discarding any prior transfer model; it merges the supplied configuration
into `options` when the argument is a non-null object — source keys
overriding existing ones, untouched keys preserved — silently leaves
`options` unchanged on any non-object (or null) argument, and returns the
extractor itself. -/
theorem classification_resets_and_merges (st : SpeechCommands) (arg : JSValue) :
    (classification st arg).usageType = some "classifier" ∧
    (classification st arg).model = some createTransfer ∧
    createTransfer.examples = [] ∧
    createTransfer.listening = false ∧
    (∀ kvs, arg = JSValue.obj kvs →
      (classification st arg).options = objectAssign st.options arg) ∧
    ((∀ kvs, arg ≠ JSValue.obj kvs) → (classification st arg).options = st.options) ∧
    (arg = JSValue.null → (classification st arg).options = st.options) ∧
    (∀ kvs, arg = JSValue.obj kvs → (kvs.map Prod.fst).Nodup →
      (∀ k v, (k, v) ∈ kvs → lookupKey (classification st arg).options k = some v) ∧
      (∀ k, k ∉ kvs.map Prod.fst →
        lookupKey (classification st arg).options k = lookupKey st.options k)) := by
  refine ⟨rfl, rfl, rfl, rfl, ?_, ?_, ?_, ?_⟩
  · rintro kvs rfl
    rfl
  · intro hno
    cases arg with
    | null => rfl
    | undefinedV => rfl
    | str s => rfl
    | num n => rfl
    | fn => rfl
    | obj kvs => exact absurd rfl (hno kvs)
  · rintro rfl
    rfl
  · rintro kvs rfl hnd
    constructor
    · intro k v hmem
      have : (classification st (JSValue.obj kvs)).options =
          kvs.foldl (fun acc p => setKey acc p.1 p.2) st.options := rfl
      rw [this]
      exact lookupKey_assignFoldl_mem kvs st.options k v hnd hmem
    · intro k hk
      have : (classification st (JSValue.obj kvs)).options =
          kvs.foldl (fun acc p => setKey acc p.1 p.2) st.options := rfl
      rw [this]
      exact lookupKey_assignFoldl_absent kvs st.options k hk

/-- C9 witness: a non-null object argument overriding one existing option
key, at a state carrying prior options; plus the null and string cases. -/
theorem classification_resets_and_merges_witness :
    (classification initState (.obj [("probabilityThreshold", .num 1)])).usageType
        = some "classifier" ∧
    (classification initState (.obj [("probabilityThreshold", .num 1)])).model
        = some createTransfer ∧
    (classification initState (.str "nope")).options = initState.options ∧
    (classification initState .null).options = initState.options := by
  have h := classification_resets_and_merges initState (.obj [("probabilityThreshold", .num 1)])
  have h2 := classification_resets_and_merges initState (.str "nope")
  have h3 := classification_resets_and_merges initState .null
  exact ⟨h.1, h.2.1,
    h2.2.2.2.2.2.1 (fun kvs hx => JSValue.noConfusion hx),
    h3.2.2.2.2.2.2.1 rfl⟩

/-- C7: in classifier mode with word labels `ls` and a model present,
`classify` starts a listen session whose `topk` is the numeric first
argument when one is supplied and `ls.length` otherwise; every result
carrying scores is delivered through `cb(null, classes)` — error-first
argument `null` — with at most `min(topk, |ls|)` entries, ordered by
non-increasing confidence. -/
theorem classify_topk_bounded_sorted (st : SpeechCommands) (m : TransferModel)
    (ls : List JSValue) (arg : JSValue) (scores : List ℚ)
    (hu : st.usageType = some "classifier") (hw : st.wordLabels = some ls)
    (hm : st.model = some m) :
    (∃ st1 evs, classify st arg = .ok (st1, evs, resolveNumberOfClasses ls arg)) ∧
    (∀ n, arg = JSValue.num n → resolveNumberOfClasses ls arg = n) ∧
    ((∀ n, arg ≠ JSValue.num n) → resolveNumberOfClasses ls arg = (ls.length : Int)) ∧
    (∀ K : Int,
      (classifyResultHandler K ls (.withScores scores)).err = none ∧
      ∃ cs, (classifyResultHandler K ls (.withScores scores)).result = some cs ∧
        cs.length ≤ min K.toNat ls.length ∧
        cs.Pairwise (fun a b => b.confidence ≤ a.confidence)) := by
  refine ⟨?_, ?_, ?_, ?_⟩
  · refine ⟨{ st with model := some { m with listening := true } },
      (if m.listening then [ListenEvent.stopListening] else []) ++ [.startListen], ?_⟩
    unfold classify
    rw [if_neg (by rw [hu]; exact fun hne => hne rfl), hw]
    unfold classifyInternal
    rw [hm]
    simp [hw]
  · rintro n rfl
    rfl
  · intro hno
    cases arg with
    | null => rfl
    | undefinedV => rfl
    | str s => rfl
    | num n => exact absurd rfl (hno n)
    | fn => rfl
    | obj kvs => rfl
  · intro K
    refine ⟨rfl, _, rfl, ?_, ?_⟩
    · calc ((getTopKClassesFromArray scores K ls).map
            (fun c => ({ label := c.className, confidence := c.probability } : LabelConfidence))).length
          = (getTopKClassesFromArray scores K ls).length := List.length_map _ _
        _ ≤ min K.toNat ls.length := by
            unfold getTopKClassesFromArray
            rw [List.length_map]
            exact List.length_take_le _ _
    · rw [List.pairwise_map]
      unfold getTopKClassesFromArray
      rw [List.pairwise_map]
      exact ((List.sorted_insertionSort scoreGe (ls.zip scores)).sublist
        (List.take_sublist _ _))

/-- A classifier-mode state with two word labels, used to instantiate the
`classify` top-K theorem. -/
def twoLabelState : SpeechCommands :=
  { emptyClassifierState with wordLabels := some [.str "yes", .str "no"] }

/-- C7 witness: `classify(1, cb)` on a state with two word labels. -/
theorem classify_topk_bounded_sorted_witness :
    twoLabelState.usageType = some "classifier" ∧
    twoLabelState.wordLabels = some [.str "yes", .str "no"] ∧
    twoLabelState.model = some createTransfer ∧
    (∀ K : Int,
      (classifyResultHandler K [.str "yes", .str "no"]
          (.withScores [1/4, 3/4])).err = none ∧
      ∃ cs, (classifyResultHandler K [.str "yes", .str "no"]
            (.withScores [1/4, 3/4])).result = some cs ∧
        cs.length ≤ min K.toNat ([JSValue.str "yes", .str "no"] : List JSValue).length ∧
        cs.Pairwise (fun a b => b.confidence ≤ a.confidence)) :=
  ⟨rfl, rfl, rfl,
    (classify_topk_bounded_sorted twoLabelState createTransfer
      [.str "yes", .str "no"] (.num 1) [1/4, 3/4] rfl rfl rfl).2.2.2⟩

/-! ## The listening flag (`isPredicting`) -/

/-- The extractor after `classification()` and one `addExample('yes')`. -/
def afterAddState : SpeechCommands :=
  match addExampleInternal (classification initState .null) (.str "yes") with
  | .ok (s, _) => s
  | .error _ => initState

/-- The extractor after `classification()`, one `addExample('yes')`, and a
successful `train()`. -/
def afterTrainState : SpeechCommands :=
  (train afterAddState constEnv).state

/-- The extractor after a further `classify(2, cb)` started the listen
stream. -/
def streamingState : SpeechCommands :=
  match classify afterTrainState (.num 2) with
  | .ok (s, _, _) => s
  | .error _ => initState

/-- C2: evidence against the claim that `isPredicting` is true exactly while
the audio collaborator is streaming. Along the concrete run
`classification(); addExample('yes'); train(p); classify(2, cb)` the
`classify` call succeeds and starts the listen stream
(`model.listening = true`), yet `isPredicting` is still `false` — no
operation in the source ever assigns `true` to it. -/
theorem isPredicting_false_while_streaming :
    (classify afterTrainState (.num 2)).isOk = true ∧
    streamingState.model = some { examples := [JSValue.str "yes"], listening := true } ∧
    streamingState.isPredicting = false ∧
    afterTrainState.isPredicting = false ∧
    afterAddState.isPredicting = false :=
  ⟨rfl, rfl, rfl, rfl, rfl⟩

end Ml5SpeechCommands
